import Mathlib

/-
Verification of the account-management Lambda of the Lacework Control Tower
integration (src/functions/source/account/account.py), as a shallow embedding.

External effects (CloudFormation describe/list/create calls, SNS publishes,
time.sleep, the Honeycomb POST, and error/warning log lines) are recorded in
an explicit trace of `Event`s.  Raising an exception is modelled by returning
`Except.error`; the outcomes of the external collaborators (secret store,
CloudFormation, SNS, Honeycomb) are supplied as oracle data in a `World`.
Info-level log lines are not modelled; error and warning log lines are, since
the error-handling claims refer to them.
-/

set_option autoImplicit false

namespace Account

/-- `CONFIG_NAME_PREFIX` of account.py line 28 (renamed to avoid a clash with
reserved words of the verification toolchain). -/
def CONFIG_NAME_PRE : String := "Lacework-Control-Tower-Config-Member-"

/-- The `{"target_accounts": [...], "target_regions": [...]}` value of one
deployment-group entry in a work-item batch message. -/
structure StackSetParams where
  target_accounts : List String
  target_regions : List String
deriving DecidableEq

/-- One element of the `ParameterOverrides` list passed to
`create_stack_instances` (account.py lines 132-139). -/
structure ParameterOverride where
  parameterKey : String
  parameterValue : String
  usePreviousValue : Bool
  resolvedValue : String
deriving DecidableEq

/-- The `OperationPreferences` passed to `create_stack_instances`
(account.py lines 140-143). -/
structure OperationPreferences where
  regionConcurrencyType : String
  failureToleranceCount : Nat
deriving DecidableEq

/-- Observable effects of one Lambda invocation, in program order.
`stackSetProcessingCalled` marks entry into `cfn_stack_set_processing`
(the log line of account.py line 94), i.e. a submission to the Deployment
Orchestrator. -/
inductive Event where
  | stackSetProcessingCalled : Event
  | describeStackSet : String → Event
  | listStackSetOperations : String → Event
  | createStackInstances : String → List String → List String →
      List ParameterOverride → OperationPreferences → Event
  | sleepSeconds : Nat → Event
  | snsPublish : String → String → StackSetParams → Event
  | listStackInstancesCall : String → String → String → Event
  | honeycombPost : String → String → String → Event
  | logError : String → Event
  | logWarn : String → Event
deriving DecidableEq

/-- Response of `secretsmanager.get_secret_value` (account.py lines 198-206):
outer `none` models a response without a `SecretString` key, inner `none`
models a `SecretString` that `json.loads` fails to parse, and the key-value
list models the parsed JSON object. -/
structure SecretResponse where
  secretString : Option (Option (List (String × String)))

/-- Per-deployment-group oracle for the CloudFormation and SNS calls of
`cfn_stack_set_processing`: whether `describe_stack_set` succeeds (versus
raising `stack_setNotFoundException`), the pages returned by the
`list_stack_set_operations` paginator (each page optionally carrying a
`Summaries` list of operation `Status` strings), and whether the SNS
re-queue publish succeeds. -/
structure StackSetEnv where
  describeOk : Bool
  operationPages : List (Option (List String))
  publishOk : Bool

/-- First response of `list_stack_instances` (account.py lines 170-174):
optionally a `Summaries` list of stack-instance identifiers, and optionally
a `NextToken`. -/
structure ListInstancesResult where
  summaries : Option (List String)
  nextToken : Option String

/-- Oracle data for one invocation: the outcome of the secret fetch, the
per-deployment-group CloudFormation/SNS behaviour, the configured
environment values, the outcome of the first `list_stack_instances` call,
and whether the Honeycomb POST succeeds. -/
structure World where
  fetch : Except String SecretResponse
  stackEnv : String → StackSetEnv
  laceworkAccountSns : String
  laceworkUrl : String
  laceworkSubAccountName : String
  listResult : Except String ListInstancesResult
  honeycombOk : Bool

/-- The payload of a work-item batch message: the JSON object mapping
deployment-group names to their target accounts/regions, in insertion
order.  Python dict keys are unique, so well-formed batches have pairwise
distinct names. -/
abbrev Batch : Type := List (String × StackSetParams)

/-- `get_access_token` (account.py lines 193-212): every failure path
(fetch raises, `SecretString` missing, JSON malformed, `AccessToken` key
missing) returns `None`; otherwise the token string. -/
def get_access_token (fetch : Except String SecretResponse) : Option String :=
  match fetch with
  | Except.error _ => none
  | Except.ok resp =>
    match resp.secretString with
    | none => none
    | some none => none
    | some (some kvs) =>
      match kvs.find? (fun kv => kv.1 == "AccessToken") with
      | none => none
      | some kv => some kv.2

/-- `get_account_from_url` (account.py lines 215-216):
the substring of the URL before the first dot. -/
def get_account_from_url (lacework_url : String) : String :=
  (lacework_url.splitOn ".").headD ""

/-- `send_honeycomb_event` (account.py lines 219-245): POSTs the payload and
swallows any failure, logging a warning.  Returns the emitted trace; the
call has no other effect on the caller. -/
def send_honeycomb_event (ok : Bool) (account : String) (eventName : String)
    (subaccount : String) : List Event :=
  Event.honeycombPost account eventName subaccount ::
    (if ok then [] else [Event.logWarn "honeycomb_post_failed"])

/-- Whether an operation `Status` string counts as busy
(account.py line 122). -/
def isBusyStatus (s : String) : Bool := s == "RUNNING" || s == "STOPPING"

/-- Whether one `list_stack_set_operations` page reports a busy operation;
pages without a `Summaries` key report nothing (account.py lines 119-124). -/
def pageBusy (p : Option (List String)) : Bool := (p.getD []).any isBusyStatus

/-- Whether the paginated operation listing reports any busy operation,
i.e. the negation of the `stack_operations` flag after the loop of
account.py lines 113-126. -/
def pagesBusy (pages : List (Option (List String))) : Bool := pages.any pageBusy

/-- The `list_stack_set_operations` calls actually issued by the paginator
loop: one fetch per page, stopping after the first page that reports a busy
operation (the `break` of account.py lines 124-126). -/
def listOpsEvents (n : String) : List (Option (List String)) → List Event
  | [] => []
  | p :: rest =>
    Event.listStackSetOperations n ::
      (if pageBusy p then [] else listOpsEvents n rest)

/-- `messages[config_stack_set_name]` (account.py line 148): dict lookup in
the batch, first match; total because the looked-up key always comes from
iterating the same dict. -/
def lookupParams (msgs : Batch) (g : String) : StackSetParams :=
  match msgs.find? (fun x => x.1 == g) with
  | some x => x.2
  | none => ⟨[], []⟩

/-- Trace of one iteration of the entry loop of `cfn_stack_set_processing`
(account.py lines 105-162): describe the stack set; if that raises
`stack_setNotFoundException`, log and re-raise (the raise itself is in
`batchRun`).  Otherwise page through the operations; if none is busy,
issue the one `create_stack_instances` call (lines 129-143); if one is
busy, log a warning, sleep 20 seconds, publish the re-queue message to SNS
(lines 147-158), logging - not raising - a publish failure. -/
def entryTrace (w : World) (token : String) (msgs : Batch) (n : String)
    (p : StackSetParams) : List Event :=
  let env := w.stackEnv n
  if env.describeOk then
    Event.describeStackSet n ::
      (listOpsEvents n env.operationPages ++
        (if pagesBusy env.operationPages then
          Event.logWarn "operations_running" :: Event.sleepSeconds 20 ::
            Event.snsPublish w.laceworkAccountSns n (lookupParams msgs n) ::
              (if env.publishOk then [] else [Event.logError "sns_publish_failed"])
        else
          [Event.createStackInstances n p.target_accounts p.target_regions
            [⟨"AccessToken", token, false, "string"⟩] ⟨"PARALLEL", 999⟩]))
  else
    [Event.describeStackSet n, Event.logError "stack_set_not_found"]

/-- The entry loop of `cfn_stack_set_processing` over `messages.items()`:
each entry contributes its trace; a `stack_setNotFoundException` is
re-raised (account.py line 162), which aborts the loop and propagates out
of the function. -/
def batchRun (w : World) (token : String) (msgs : Batch) :
    Batch → List Event × Except String Unit
  | [] => ([], Except.ok ())
  | (n, p) :: rest =>
    if (w.stackEnv n).describeOk then
      let r := batchRun w token msgs rest
      (entryTrace w token msgs n p ++ r.1, r.2)
    else
      (entryTrace w token msgs n p, Except.error "stack_setNotFoundException")

/-- `cfn_stack_set_processing` (account.py lines 93-162): resolve the
access token; on `None` log and return normally without touching
CloudFormation; otherwise run the entry loop. -/
def cfn_stack_set_processing (w : World) (messages : Batch) :
    List Event × Except String Unit :=
  match get_access_token w.fetch with
  | none =>
    ([Event.stackSetProcessingCalled, Event.logError "no_access_token"],
      Except.ok ())
  | some token =>
    let r := batchRun w token messages messages
    (Event.stackSetProcessingCalled :: r.1, r.2)

/-- Result of `list_stack_instance_by_account_region` ignoring its trace
(account.py lines 165-190).  `none` models the `False` sentinel: returned
when the first call raises, when the response carries no `Summaries`, and
also whenever the response carries a `NextToken` - the continuation fetch
of line 180 invokes `list_stack_set_instance`, which is not an operation of
the CloudFormation client, so it raises `AttributeError`, which the
catch-all of line 188 turns into `False`. -/
def locatorResult (firstCall : Except String ListInstancesResult) :
    Option (List String) :=
  match firstCall with
  | Except.error _ => none
  | Except.ok r =>
    match r.summaries with
    | none => none
    | some l =>
      match r.nextToken with
      | none => some l
      | some _ => none

/-- `list_stack_instance_by_account_region` (account.py lines 165-190):
issues exactly one `list_stack_instances` call and yields
`locatorResult` of its outcome. -/
def list_stack_instance_by_account_region
    (firstCall : Except String ListInstancesResult)
    (name account region : String) :
    List Event × Option (List String) :=
  ([Event.listStackInstancesCall name account region], locatorResult firstCall)

/-- The lifecycle notification fields used by the handler: the nested
`createManagedAccountStatus.state`, the created `accountId`, and the
top-level `awsRegion`. -/
structure LifecycleEvent where
  state : String
  accountId : String
  awsRegion : String

/-- The deployment-group name derived on account.py lines 72-73: the
configured sub-account name when non-empty (Python truthiness), else the
account name taken from the URL. -/
def configName (w : World) : String :=
  CONFIG_NAME_PRE ++
    (if w.laceworkSubAccountName == "" then get_account_from_url w.laceworkUrl
     else w.laceworkSubAccountName)

/-- `lifecycle_eventbridge_processing` (account.py lines 61-90): on state
`SUCCEEDED`, emit the Honeycomb event, then check for an existing stack-set
instance at the derived (group, account, region); if the check returns an
empty list, submit the synthesized single-account work item to
`cfn_stack_set_processing`; if it returns a non-empty list, no-op.  When
the locator returns the `False` sentinel, the `len(...)` of account.py
line 78 raises `TypeError`, modelled as `Except.error`. -/
def lifecycle_eventbridge_processing (w : World) (ev : LifecycleEvent) :
    List Event × Except String Unit :=
  if ev.state == "SUCCEEDED" then
    let hcTrace := send_honeycomb_event w.honeycombOk
      (get_account_from_url w.laceworkUrl) "add account" w.laceworkSubAccountName
    let locator := list_stack_instance_by_account_region w.listResult
      (configName w) ev.accountId ev.awsRegion
    match locator.2 with
    | none => (hcTrace ++ locator.1, Except.error "TypeError: len of bool")
    | some instances =>
      if instances.length == 0 then
        let r := cfn_stack_set_processing w
          [(configName w, ⟨[ev.accountId], [ev.awsRegion]⟩)]
        (hcTrace ++ locator.1 ++ r.1, r.2)
      else
        (hcTrace ++ locator.1, Except.ok ())
  else
    ([Event.logError "invalid_event_state"], Except.ok ())

/-- `stack_set_sns_processing` (account.py lines 54-58): process each
record's message body in order; an exception raised by
`cfn_stack_set_processing` propagates and aborts the remaining records. -/
def stack_set_sns_processing (w : World) :
    List Batch → List Event × Except String Unit
  | [] => ([], Except.ok ())
  | b :: rest =>
    let r := cfn_stack_set_processing w b
    match r.2 with
    | Except.error e => (r.1, Except.error e)
    | Except.ok _ =>
      let rr := stack_set_sns_processing w rest
      (r.1 ++ rr.1, rr.2)

/-- The shapes `lambda_handler` distinguishes (account.py lines 43-49):
a `Records` batch, a `detail` event with its `eventName`, or anything
else. -/
inductive LambdaEvent where
  | records : List Batch → LambdaEvent
  | detailEvent : String → LifecycleEvent → LambdaEvent
  | otherEvent : LambdaEvent

/-- The dispatch of account.py lines 43-49: the body of the `try` of
`lambda_handler`, routing the event by shape. -/
def routeEvent (w : World) (ev : LambdaEvent) :
    List Event × Except String Unit :=
  match ev with
  | LambdaEvent.records batches => stack_set_sns_processing w batches
  | LambdaEvent.detailEvent eventName lev =>
    if eventName == "CreateManagedAccount" then
      lifecycle_eventbridge_processing w lev
    else ([], Except.ok ())
  | LambdaEvent.otherEvent => ([], Except.ok ())

/-- `lambda_handler` (account.py lines 38-51): route the event, and catch
any exception at the top, logging it; the runtime never sees a raise. -/
def lambda_handler (w : World) (ev : LambdaEvent) :
    List Event × Except String Unit :=
  match (routeEvent w ev).2 with
  | Except.error e => ((routeEvent w ev).1 ++ [Event.logError e], Except.ok ())
  | Except.ok _ => routeEvent w ev

end Account

namespace Account

/-- Recognizes a `create_stack_instances` call for deployment-group `g`. -/
def isCreateFor (g : String) : Event → Bool
  | Event.createStackInstances n _ _ _ _ => n == g
  | _ => false

/-- Recognizes an SNS re-queue publish whose message body is keyed by
deployment-group `g`. -/
def isPublishFor (g : String) : Event → Bool
  | Event.snsPublish _ n _ => n == g
  | _ => false

/-- Recognizes a `describe_stack_set` call for deployment-group `g`. -/
def isDescribeFor (g : String) : Event → Bool
  | Event.describeStackSet n => n == g
  | _ => false

/-- Recognizes any CloudFormation API call (describe, list-operations,
create-instances, list-instances). -/
def isCfnApiCall : Event → Bool
  | Event.describeStackSet _ => true
  | Event.listStackSetOperations _ => true
  | Event.createStackInstances _ _ _ _ _ => true
  | Event.listStackInstancesCall _ _ _ => true
  | _ => false

/-- Recognizes the Honeycomb telemetry POST. -/
def isHoneycomb : Event → Bool
  | Event.honeycombPost _ _ _ => true
  | _ => false

/-- Recognizes entry into `cfn_stack_set_processing`, i.e. a work-item
submission to the Deployment Orchestrator. -/
def isSubmitCall : Event → Bool
  | Event.stackSetProcessingCalled => true
  | _ => false

end Account

namespace Account

/- Concrete oracle data used by counterexamples and witnesses. -/

/-- A secret fetch that yields the access token `tok1`. -/
def okFetch : Except String SecretResponse :=
  Except.ok ⟨some (some [("AccessToken", "tok1")])⟩

/-- A secret fetch that raises. -/
def badFetch : Except String SecretResponse := Except.error "secret_fetch_failed"

/-- A deployment group that exists and has only finished operations. -/
def idleEnv : StackSetEnv := ⟨true, [some ["SUCCEEDED"]], true⟩

/-- A deployment group that exists and has a RUNNING operation. -/
def busyEnv : StackSetEnv := ⟨true, [some ["RUNNING"]], true⟩

/-- A deployment group whose describe call raises
`stack_setNotFoundException`. -/
def missingEnv : StackSetEnv := ⟨false, [], true⟩

/-- Assigns environment `a` to group `A` and `b` to every other group. -/
def envAB (a b : StackSetEnv) : String → StackSetEnv :=
  fun n => if n == "A" then a else b

/-- A first `list_stack_instances` response with no matching instances. -/
def listOkEmpty : Except String ListInstancesResult := Except.ok ⟨some [], none⟩

/-- Work-item parameters for group `A`. -/
def pA : StackSetParams := ⟨["111111111111"], ["us-east-1"]⟩

/-- Work-item parameters for group `B`. -/
def pB : StackSetParams := ⟨["222222222222"], ["us-west-2"]⟩

/-- World whose group `A` is missing and whose other groups are idle. -/
def wMissingFirst : World :=
  ⟨okFetch, envAB missingEnv idleEnv, "sns-topic", "acme.lacework.net", "",
    listOkEmpty, true⟩

/-- World whose group `A` is busy and whose other groups are idle. -/
def wBusyFirst : World :=
  ⟨okFetch, envAB busyEnv idleEnv, "sns-topic", "acme.lacework.net", "",
    listOkEmpty, true⟩

/-- World where every group is idle. -/
def wIdle : World :=
  ⟨okFetch, envAB idleEnv idleEnv, "sns-topic", "acme.lacework.net", "",
    listOkEmpty, true⟩

/-- World where every group is busy. -/
def wBusy : World :=
  ⟨okFetch, envAB busyEnv busyEnv, "sns-topic", "acme.lacework.net", "",
    listOkEmpty, true⟩

/-- World whose group `A` is idle and whose other groups are missing. -/
def wIdleFirstMissing : World :=
  ⟨okFetch, envAB idleEnv missingEnv, "sns-topic", "acme.lacework.net", "",
    listOkEmpty, true⟩

/-- World whose secret fetch fails. -/
def wBadFetch : World :=
  ⟨badFetch, envAB idleEnv idleEnv, "sns-topic", "acme.lacework.net", "",
    listOkEmpty, true⟩

/-- World whose first `list_stack_instances` call raises. -/
def wLocatorFails : World :=
  ⟨okFetch, envAB idleEnv idleEnv, "sns-topic", "acme.lacework.net", "",
    Except.error "list_stack_instances_failed", true⟩

/-- World whose locator finds one existing instance. -/
def wInstanceExists : World :=
  ⟨okFetch, envAB idleEnv idleEnv, "sns-topic", "acme.lacework.net", "",
    Except.ok ⟨some ["existing-instance"], none⟩, true⟩

/-- A SUCCEEDED `CreateManagedAccount` lifecycle notification for a newly
vended account. -/
def levNew : LifecycleEvent := ⟨"SUCCEEDED", "333333333333", "eu-west-1"⟩

example : get_access_token okFetch = some "tok1" := rfl

example :
    (cfn_stack_set_processing wIdle [("A", pA)]).1 =
      [Event.stackSetProcessingCalled, Event.describeStackSet "A",
       Event.listStackSetOperations "A",
       Event.createStackInstances "A" ["111111111111"] ["us-east-1"]
         [⟨"AccessToken", "tok1", false, "string"⟩] ⟨"PARALLEL", 999⟩] := rfl

example :
    (cfn_stack_set_processing wMissingFirst [("A", pA), ("B", pB)]).1 =
      [Event.stackSetProcessingCalled, Event.describeStackSet "A",
       Event.logError "stack_set_not_found"] := rfl

example :
    (cfn_stack_set_processing wBusyFirst [("A", pA), ("B", pB)]).1 =
      [Event.stackSetProcessingCalled, Event.describeStackSet "A",
       Event.listStackSetOperations "A", Event.logWarn "operations_running",
       Event.sleepSeconds 20, Event.snsPublish "sns-topic" "A" pA,
       Event.describeStackSet "B", Event.listStackSetOperations "B",
       Event.createStackInstances "B" ["222222222222"] ["us-west-2"]
         [⟨"AccessToken", "tok1", false, "string"⟩] ⟨"PARALLEL", 999⟩] := rfl

end Account

namespace Account

/-- A list none of whose elements satisfies `p` filters to the empty list. -/
theorem filter_eq_nil_of_all {α : Type} (p : α → Bool) :
    ∀ l : List α, (∀ e ∈ l, p e = false) → l.filter p = []
  | [], _ => rfl
  | e :: l, h => by
    have he : p e = false := h e (List.mem_cons_self e l)
    have ih := filter_eq_nil_of_all p l (fun x hx => h x (List.mem_cons_of_mem e hx))
    simp [List.filter_cons, he, ih]

/-- Every event emitted by the operations paginator is a
`listStackSetOperations` call for the same group. -/
theorem mem_listOpsEvents {n : String} {e : Event} :
    ∀ pages, e ∈ listOpsEvents n pages → e = Event.listStackSetOperations n
  | [], h => absurd h (List.not_mem_nil e)
  | p :: rest, h => by
    unfold listOpsEvents at h
    rcases List.mem_cons.mp h with h1 | h2
    · exact h1
    · by_cases hb : pageBusy p = true
      · simp [hb] at h2
      · simp [hb] at h2
        exact mem_listOpsEvents rest h2

/-- The create-instances calls of one entry iteration: exactly one, with the
entry's accounts and regions, the token override and the fixed preferences,
when the group exists and is not busy; none otherwise. -/
theorem entryTrace_filter_create (w : World) (tok : String) (msgs : Batch)
    (n : String) (p : StackSetParams) (g : String) :
    (entryTrace w tok msgs n p).filter (isCreateFor g) =
      (if (n == g) && (w.stackEnv n).describeOk
          && !(pagesBusy (w.stackEnv n).operationPages) then
        [Event.createStackInstances n p.target_accounts p.target_regions
          [⟨"AccessToken", tok, false, "string"⟩] ⟨"PARALLEL", 999⟩]
      else []) := by
  unfold entryTrace
  have hlist : (listOpsEvents n (w.stackEnv n).operationPages).filter
      (isCreateFor g) = [] :=
    filter_eq_nil_of_all _ _ (fun e he => by rw [mem_listOpsEvents _ he]; rfl)
  by_cases hd : (w.stackEnv n).describeOk
  · by_cases hb : pagesBusy (w.stackEnv n).operationPages
    · by_cases hpub : (w.stackEnv n).publishOk <;>
        simp [hd, hb, hpub, List.filter_append, List.filter_cons, hlist, isCreateFor]
    · cases hng : (n == g) <;>
        simp [hd, hb, hng, List.filter_append, List.filter_cons, hlist, isCreateFor]
  · simp [hd, List.filter_cons, isCreateFor]

/-- The re-queue publishes of one entry iteration: exactly one, keyed by the
entry's group and carrying the dict lookup of that group in the batch, when
the group exists and is busy; none otherwise. -/
theorem entryTrace_filter_publish (w : World) (tok : String) (msgs : Batch)
    (n : String) (p : StackSetParams) (g : String) :
    (entryTrace w tok msgs n p).filter (isPublishFor g) =
      (if (n == g) && (w.stackEnv n).describeOk
          && pagesBusy (w.stackEnv n).operationPages then
        [Event.snsPublish w.laceworkAccountSns n (lookupParams msgs n)]
      else []) := by
  unfold entryTrace
  have hlist : (listOpsEvents n (w.stackEnv n).operationPages).filter
      (isPublishFor g) = [] :=
    filter_eq_nil_of_all _ _ (fun e he => by rw [mem_listOpsEvents _ he]; rfl)
  by_cases hd : (w.stackEnv n).describeOk
  · by_cases hb : pagesBusy (w.stackEnv n).operationPages
    · by_cases hpub : (w.stackEnv n).publishOk <;> cases hng : (n == g) <;>
        simp [hd, hb, hpub, hng, List.filter_append, List.filter_cons, hlist,
          isPublishFor]
    · simp [hd, hb, List.filter_append, List.filter_cons, hlist, isPublishFor]
  · simp [hd, List.filter_cons, isPublishFor]

/-- Each entry iteration issues exactly one describe call, for its own
group, in every branch. -/
theorem entryTrace_filter_describe (w : World) (tok : String) (msgs : Batch)
    (n : String) (p : StackSetParams) (g : String) :
    (entryTrace w tok msgs n p).filter (isDescribeFor g) =
      (if (n == g) then [Event.describeStackSet n] else []) := by
  unfold entryTrace
  have hlist : (listOpsEvents n (w.stackEnv n).operationPages).filter
      (isDescribeFor g) = [] :=
    filter_eq_nil_of_all _ _ (fun e he => by rw [mem_listOpsEvents _ he]; rfl)
  by_cases hd : (w.stackEnv n).describeOk
  · by_cases hb : pagesBusy (w.stackEnv n).operationPages
    · by_cases hpub : (w.stackEnv n).publishOk <;> cases hng : (n == g) <;>
        simp [hd, hb, hpub, hng, List.filter_append, List.filter_cons, hlist,
          isDescribeFor]
    · cases hng : (n == g) <;>
        simp [hd, hb, hng, List.filter_append, List.filter_cons, hlist,
          isDescribeFor]
  · cases hng : (n == g) <;> simp [hd, hng, List.filter_cons, isDescribeFor]

/-- No entry iteration emits a Honeycomb POST. -/
theorem entryTrace_filter_honeycomb (w : World) (tok : String) (msgs : Batch)
    (n : String) (p : StackSetParams) :
    (entryTrace w tok msgs n p).filter isHoneycomb = [] := by
  unfold entryTrace
  have hlist : (listOpsEvents n (w.stackEnv n).operationPages).filter
      isHoneycomb = [] :=
    filter_eq_nil_of_all _ _ (fun e he => by rw [mem_listOpsEvents _ he]; rfl)
  by_cases hd : (w.stackEnv n).describeOk
  · by_cases hb : pagesBusy (w.stackEnv n).operationPages
    · by_cases hpub : (w.stackEnv n).publishOk <;>
        simp [hd, hb, hpub, List.filter_append, List.filter_cons, hlist,
          isHoneycomb]
    · simp [hd, hb, List.filter_append, List.filter_cons, hlist, isHoneycomb]
  · simp [hd, List.filter_cons, isHoneycomb]

/-- No entry iteration re-enters `cfn_stack_set_processing`. -/
theorem entryTrace_filter_submit (w : World) (tok : String) (msgs : Batch)
    (n : String) (p : StackSetParams) :
    (entryTrace w tok msgs n p).filter isSubmitCall = [] := by
  unfold entryTrace
  have hlist : (listOpsEvents n (w.stackEnv n).operationPages).filter
      isSubmitCall = [] :=
    filter_eq_nil_of_all _ _ (fun e he => by rw [mem_listOpsEvents _ he]; rfl)
  by_cases hd : (w.stackEnv n).describeOk
  · by_cases hb : pagesBusy (w.stackEnv n).operationPages
    · by_cases hpub : (w.stackEnv n).publishOk <;>
        simp [hd, hb, hpub, List.filter_append, List.filter_cons, hlist,
          isSubmitCall]
    · simp [hd, hb, List.filter_append, List.filter_cons, hlist, isSubmitCall]
  · simp [hd, List.filter_cons, isSubmitCall]

/-- Every entry iteration starts with the describe call for its group. -/
theorem entryTrace_head (w : World) (tok : String) (msgs : Batch)
    (n : String) (p : StackSetParams) :
    ∃ t, entryTrace w tok msgs n p = Event.describeStackSet n :: t := by
  unfold entryTrace
  by_cases hd : (w.stackEnv n).describeOk
  · simp only [hd, if_true]
    exact ⟨_, rfl⟩
  · simp only [hd, if_false, Bool.false_eq_true]
    exact ⟨_, rfl⟩

end Account

namespace Account

/-- Concatenation of the entry traces of a batch segment, used to describe
the trace of `batchRun` on a prefix of entries that all succeed. -/
def tracesOf (w : World) (token : String) (msgs : Batch) : Batch → List Event
  | [] => []
  | (n, p) :: rest => entryTrace w token msgs n p ++ tracesOf w token msgs rest

/-- Splitting the entry loop after a prefix of entries whose groups all
exist: the prefix contributes its entry traces and the loop continues on
the rest. -/
theorem batchRun_append (w : World) (tok : String) (msgs : Batch) :
    ∀ (pre rest : Batch), (∀ x ∈ pre, (w.stackEnv x.1).describeOk = true) →
    batchRun w tok msgs (pre ++ rest) =
      (tracesOf w tok msgs pre ++ (batchRun w tok msgs rest).1,
        (batchRun w tok msgs rest).2)
  | [], rest, _ => by simp [tracesOf]
  | (n, p) :: pre, rest, h => by
    have hd : (w.stackEnv n).describeOk = true := h (n, p) (List.mem_cons_self _ _)
    have ih := batchRun_append w tok msgs pre rest
      (fun x hx => h x (List.mem_cons_of_mem _ hx))
    simp [batchRun, hd, tracesOf, ih, List.append_assoc]

/-- The entry loop returns normally when every entry's group exists. -/
theorem batchRun_ok (w : World) (tok : String) (msgs : Batch) :
    ∀ entries : Batch, (∀ x ∈ entries, (w.stackEnv x.1).describeOk = true) →
    (batchRun w tok msgs entries).2 = Except.ok ()
  | [], _ => rfl
  | (n, p) :: rest, h => by
    have hd : (w.stackEnv n).describeOk = true := h (n, p) (List.mem_cons_self _ _)
    have ih := batchRun_ok w tok msgs rest (fun x hx => h x (List.mem_cons_of_mem _ hx))
    simp [batchRun, hd, ih]

/-- A batch segment whose keys avoid `g` contributes no create-instances
call for `g`. -/
theorem tracesOf_filter_create (w : World) (tok : String) (msgs : Batch)
    (g : String) :
    ∀ entries : Batch, g ∉ entries.map Prod.fst →
    (tracesOf w tok msgs entries).filter (isCreateFor g) = []
  | [], _ => rfl
  | (n, p) :: rest, h => by
    have hn : (n == g) = false := by
      simp only [List.map_cons, List.mem_cons, not_or] at h
      simp [beq_iff_eq]
      exact fun hc => h.1 hc.symm
    have ih := tracesOf_filter_create w tok msgs g rest
      (by simp only [List.map_cons, List.mem_cons, not_or] at h; exact h.2)
    simp [tracesOf, List.filter_append, entryTrace_filter_create, hn, ih]

/-- A batch segment whose keys avoid `g` contributes no re-queue publish
for `g`. -/
theorem tracesOf_filter_publish (w : World) (tok : String) (msgs : Batch)
    (g : String) :
    ∀ entries : Batch, g ∉ entries.map Prod.fst →
    (tracesOf w tok msgs entries).filter (isPublishFor g) = []
  | [], _ => rfl
  | (n, p) :: rest, h => by
    have hn : (n == g) = false := by
      simp only [List.map_cons, List.mem_cons, not_or] at h
      simp [beq_iff_eq]
      exact fun hc => h.1 hc.symm
    have ih := tracesOf_filter_publish w tok msgs g rest
      (by simp only [List.map_cons, List.mem_cons, not_or] at h; exact h.2)
    simp [tracesOf, List.filter_append, entryTrace_filter_publish, hn, ih]

/-- The loop over any suffix of entries never issues a create-instances
call for a group that is not among its keys (this also covers loops that
abort early on a missing group). -/
theorem batchRun_filter_create (w : World) (tok : String) (msgs : Batch)
    (g : String) :
    ∀ entries : Batch, g ∉ entries.map Prod.fst →
    ((batchRun w tok msgs entries).1).filter (isCreateFor g) = []
  | [], _ => rfl
  | (n, p) :: rest, h => by
    have hn : (n == g) = false := by
      simp only [List.map_cons, List.mem_cons, not_or] at h
      simp [beq_iff_eq]
      exact fun hc => h.1 hc.symm
    have ih := batchRun_filter_create w tok msgs g rest
      (by simp only [List.map_cons, List.mem_cons, not_or] at h; exact h.2)
    by_cases hd : (w.stackEnv n).describeOk
    · simp [batchRun, hd, List.filter_append, entryTrace_filter_create, hn, ih]
    · simp [batchRun, hd, List.filter_append, entryTrace_filter_create, hn]

/-- The loop over any suffix of entries never publishes a re-queue message
for a group that is not among its keys. -/
theorem batchRun_filter_publish (w : World) (tok : String) (msgs : Batch)
    (g : String) :
    ∀ entries : Batch, g ∉ entries.map Prod.fst →
    ((batchRun w tok msgs entries).1).filter (isPublishFor g) = []
  | [], _ => rfl
  | (n, p) :: rest, h => by
    have hn : (n == g) = false := by
      simp only [List.map_cons, List.mem_cons, not_or] at h
      simp [beq_iff_eq]
      exact fun hc => h.1 hc.symm
    have ih := batchRun_filter_publish w tok msgs g rest
      (by simp only [List.map_cons, List.mem_cons, not_or] at h; exact h.2)
    by_cases hd : (w.stackEnv n).describeOk
    · simp [batchRun, hd, List.filter_append, entryTrace_filter_publish, hn, ih]
    · simp [batchRun, hd, List.filter_append, entryTrace_filter_publish, hn]

/-- Looking up `g` in a batch whose prefix avoids `g` finds the entry
`(g, p)` placed right after that prefix. -/
theorem lookupParams_append (g : String) (p : StackSetParams) :
    ∀ (pre post : Batch), g ∉ pre.map Prod.fst →
    lookupParams (pre ++ (g, p) :: post) g = p
  | [], post, _ => by simp [lookupParams, List.find?]
  | (n, q) :: pre, post, h => by
    have hn : (n == g) = false := by
      simp only [List.map_cons, List.mem_cons, not_or] at h
      simp [beq_iff_eq]
      exact fun hc => h.1 hc.symm
    have ih := lookupParams_append g p pre post
      (by simp only [List.map_cons, List.mem_cons, not_or] at h; exact h.2)
    simpa [lookupParams, List.find?, hn] using ih

end Account

namespace Account

/-- Recognizes any `create_stack_instances` call, for any group. -/
def isCreate : Event → Bool
  | Event.createStackInstances _ _ _ _ _ => true
  | _ => false

/-- The top-level catch-all of `lambda_handler` (account.py lines 50-51)
converts every raise into a logged error: the invoking runtime always sees
a normal return. -/
theorem lambda_absorbs (w : World) (ev : LambdaEvent) :
    (lambda_handler w ev).2 = Except.ok () := by
  unfold lambda_handler
  cases h : (routeEvent w ev).2 <;> simp [h]

/-- C3: if credential resolution returns null, the orchestrator makes zero
CloudFormation calls (describe, list-operations, create-instances or
list-instances) for any entry of the batch, logs the failure, and returns
normally without raising. -/
theorem C3_no_token_no_calls (w : World) (msgs : Batch)
    (h : get_access_token w.fetch = none) :
    ((cfn_stack_set_processing w msgs).1).filter isCfnApiCall = [] ∧
    Event.logError "no_access_token" ∈ (cfn_stack_set_processing w msgs).1 ∧
    (cfn_stack_set_processing w msgs).2 = Except.ok () := by
  unfold cfn_stack_set_processing
  rw [h]
  exact ⟨rfl, by simp, rfl⟩

/-- Witness for C3 at a world whose secret fetch raises, with a one-entry
batch. -/
theorem C3_witness :
    get_access_token wBadFetch.fetch = none ∧
    (((cfn_stack_set_processing wBadFetch [("A", pA)]).1).filter
        isCfnApiCall = [] ∧
      Event.logError "no_access_token" ∈
        (cfn_stack_set_processing wBadFetch [("A", pA)]).1 ∧
      (cfn_stack_set_processing wBadFetch [("A", pA)]).2 = Except.ok ()) :=
  ⟨rfl, C3_no_token_no_calls wBadFetch [("A", pA)] rfl⟩

/-- C4 counterexample: on a batch whose single entry's deployment-group
does not exist, `cfn_stack_set_processing` re-raises the not-found
exception to its caller instead of absorbing it. -/
theorem C4_counterexample :
    (cfn_stack_set_processing wMissingFirst [("A", pA)]).2 =
      Except.error "stack_setNotFoundException" := rfl

/-- C4 as amended: the orchestrator returns normally whenever every entry's
deployment-group exists (all other failures, including a failed re-queue
publish, are absorbed); the not-found raise is caught one level up, at the
dispatcher boundary, so the invoking runtime never sees an exception. -/
theorem C4_amended (w : World) (msgs : Batch) (ev : LambdaEvent)
    (h : ∀ x ∈ msgs, (w.stackEnv x.1).describeOk = true) :
    (cfn_stack_set_processing w msgs).2 = Except.ok () ∧
    (lambda_handler w ev).2 = Except.ok () := by
  refine ⟨?_, lambda_absorbs w ev⟩
  unfold cfn_stack_set_processing
  cases htok : get_access_token w.fetch
  · rfl
  · simpa using batchRun_ok w _ msgs msgs h

/-- Witness for C4 as amended: a batch whose two groups both exist, one of
them busy with a failing publish, processed and then dispatched. -/
theorem C4_witness :
    (∀ x ∈ ([("A", pA), ("B", pB)] : Batch),
      (wBusyFirst.stackEnv x.1).describeOk = true) ∧
    ((cfn_stack_set_processing wBusyFirst [("A", pA), ("B", pB)]).2 =
        Except.ok () ∧
      (lambda_handler wBusyFirst
        (LambdaEvent.records [[("A", pA), ("B", pB)]])).2 = Except.ok ()) :=
  ⟨by decide, C4_amended wBusyFirst [("A", pA), ("B", pB)]
    (LambdaEvent.records [[("A", pA), ("B", pB)]]) (by decide)⟩

/-- C7: a locator query whose first result page carries a continuation
token does not drain pagination; the continuation fetch of account.py
line 180 invokes `list_stack_set_instance`, which does not exist on the
CloudFormation client, so the resulting `AttributeError` is swallowed by
the catch-all and the `False` sentinel is returned in place of the
accumulated instance summaries. -/
theorem C7_pagination_bug :
    (list_stack_instance_by_account_region
      (Except.ok ⟨some ["instance-page-1"], some "next-token"⟩)
      "Lacework-Control-Tower-Config-Member-acme" "444444444444"
      "us-east-2").2 = none := rfl

end Account

namespace Account

/-- C1 counterexample: in the two-entry batch `A, B` where group `A` does
not exist and group `B` exists and is idle and the credential resolves,
entry `B` satisfies the claim's hypotheses yet receives zero
create-instances calls, because the not-found raise of entry `A` aborts
the loop. -/
theorem C1_counterexample :
    (wMissingFirst.stackEnv "B").describeOk = true ∧
    pagesBusy (wMissingFirst.stackEnv "B").operationPages = false ∧
    get_access_token wMissingFirst.fetch = some "tok1" ∧
    ((cfn_stack_set_processing wMissingFirst [("A", pA), ("B", pB)]).1).filter
      (isCreateFor "B") = [] :=
  ⟨rfl, rfl, rfl, rfl⟩

/-- C1 as amended: for each entry whose deployment-group exists and is not
busy, provided every earlier entry's deployment-group also exists (so the
entry is reached at all), processing issues exactly one create-instances
call, with exactly the entry's target accounts and regions, the resolved
credential as the single parameter override, region-parallel preferences
and failure tolerance 999.  (Keys are assumed unique across the batch, as
they are in the source's JSON dict.) -/
theorem C1_amended (w : World) (pre post : Batch) (g : String)
    (p : StackSetParams) (tok : String)
    (htok : get_access_token w.fetch = some tok)
    (hpre : ∀ x ∈ pre, (w.stackEnv x.1).describeOk = true)
    (hg : (w.stackEnv g).describeOk = true)
    (hnb : pagesBusy (w.stackEnv g).operationPages = false)
    (hfresh1 : g ∉ pre.map Prod.fst) (hfresh2 : g ∉ post.map Prod.fst) :
    ((cfn_stack_set_processing w (pre ++ (g, p) :: post)).1).filter
        (isCreateFor g) =
      [Event.createStackInstances g p.target_accounts p.target_regions
        [⟨"AccessToken", tok, false, "string"⟩] ⟨"PARALLEL", 999⟩] := by
  unfold cfn_stack_set_processing
  rw [htok]
  dsimp only
  rw [batchRun_append w tok _ pre ((g, p) :: post) hpre]
  simp only [List.filter_cons, List.filter_append]
  rw [tracesOf_filter_create w tok _ g pre hfresh1]
  simp only [batchRun, hg, if_true]
  simp only [List.filter_append]
  rw [entryTrace_filter_create, batchRun_filter_create w tok _ g post hfresh2]
  simp [hg, hnb, isCreateFor]

/-- Witness for C1 as amended at a concrete idle world with a one-entry
batch. -/
theorem C1_witness :
    get_access_token wIdle.fetch = some "tok1" ∧
    (wIdle.stackEnv "A").describeOk = true ∧
    pagesBusy (wIdle.stackEnv "A").operationPages = false ∧
    ((cfn_stack_set_processing wIdle [("A", pA)]).1).filter (isCreateFor "A") =
      [Event.createStackInstances "A" pA.target_accounts pA.target_regions
        [⟨"AccessToken", "tok1", false, "string"⟩] ⟨"PARALLEL", 999⟩] :=
  ⟨rfl, rfl, rfl,
    C1_amended wIdle [] [] "A" pA "tok1" rfl (by simp) rfl rfl
      (by simp) (by simp)⟩

/-- C5 counterexample: in the two-entry batch `A, B` where group `A` does
not exist, entry `B` (whose group exists) is never processed - not even
its describe call happens - because the not-found exception is re-raised
out of the loop; the claim's assertion that every other entry in the batch
is still processed fails. -/
theorem C5_counterexample :
    (wMissingFirst.stackEnv "B").describeOk = true ∧
    ((cfn_stack_set_processing wMissingFirst [("A", pA), ("B", pB)]).1).filter
      (isDescribeFor "B") = [] ∧
    (cfn_stack_set_processing wMissingFirst [("A", pA), ("B", pB)]).2 =
      Except.error "stack_setNotFoundException" :=
  ⟨rfl, rfl, rfl⟩

/-- C5 as amended: when an entry's deployment-group does not exist, no
re-queue publish is attempted for that entry; entries before it in the
batch are processed normally, but the re-raised not-found error ends the
invocation there, so entries after it are not processed at all (the whole
trace is the prefix traces followed by the failing describe and its error
log). -/
theorem C5_amended (w : World) (pre post : Batch) (g : String)
    (p : StackSetParams) (tok : String)
    (htok : get_access_token w.fetch = some tok)
    (hpre : ∀ x ∈ pre, (w.stackEnv x.1).describeOk = true)
    (hg : (w.stackEnv g).describeOk = false)
    (hfresh1 : g ∉ pre.map Prod.fst) :
    (cfn_stack_set_processing w (pre ++ (g, p) :: post)).1 =
      Event.stackSetProcessingCalled ::
        (tracesOf w tok (pre ++ (g, p) :: post) pre ++
          [Event.describeStackSet g, Event.logError "stack_set_not_found"]) ∧
    ((cfn_stack_set_processing w (pre ++ (g, p) :: post)).1).filter
      (isPublishFor g) = [] ∧
    (cfn_stack_set_processing w (pre ++ (g, p) :: post)).2 =
      Except.error "stack_setNotFoundException" := by
  unfold cfn_stack_set_processing
  rw [htok]
  dsimp only
  rw [batchRun_append w tok _ pre ((g, p) :: post) hpre]
  have hb : batchRun w tok (pre ++ (g, p) :: post) ((g, p) :: post) =
      (entryTrace w tok (pre ++ (g, p) :: post) g p,
        Except.error "stack_setNotFoundException") := by
    simp [batchRun, hg]
  rw [hb]
  have he : entryTrace w tok (pre ++ (g, p) :: post) g p =
      [Event.describeStackSet g, Event.logError "stack_set_not_found"] := by
    unfold entryTrace
    simp [hg]
  rw [he]
  refine ⟨rfl, ?_, rfl⟩
  simp only [List.filter_cons, List.filter_append]
  rw [tracesOf_filter_publish w tok _ g pre hfresh1]
  simp [isPublishFor]

/-- Witness for C5 as amended: batch `A, B` with `A` existing and idle and
`B` missing; only `A` is processed and the function raises. -/
theorem C5_witness :
    get_access_token wIdleFirstMissing.fetch = some "tok1" ∧
    (wIdleFirstMissing.stackEnv "B").describeOk = false ∧
    ((cfn_stack_set_processing wIdleFirstMissing [("A", pA), ("B", pB)]).1 =
        Event.stackSetProcessingCalled ::
          (tracesOf wIdleFirstMissing "tok1" [("A", pA), ("B", pB)]
              [("A", pA)] ++
            [Event.describeStackSet "B",
              Event.logError "stack_set_not_found"]) ∧
      ((cfn_stack_set_processing wIdleFirstMissing
          [("A", pA), ("B", pB)]).1).filter (isPublishFor "B") = [] ∧
      (cfn_stack_set_processing wIdleFirstMissing [("A", pA), ("B", pB)]).2 =
        Except.error "stack_setNotFoundException") :=
  ⟨rfl, rfl,
    C5_amended wIdleFirstMissing [("A", pA)] [] "B" pB "tok1" rfl
      (by decide) rfl (by decide)⟩

end Account

namespace Account

/-- World whose group `A` is missing and whose other groups are busy. -/
def wMissingBusy : World :=
  ⟨okFetch, envAB missingEnv busyEnv, "sns-topic", "acme.lacework.net", "",
    listOkEmpty, true⟩

/-- C2 counterexample: in the two-entry batch `A, B` where group `A` does
not exist and group `B` exists and is busy and the credential resolves,
entry `B` satisfies the claim's hypotheses yet no re-queue publish is
issued for it, because the not-found raise of entry `A` aborts the loop. -/
theorem C2_counterexample :
    (wMissingBusy.stackEnv "B").describeOk = true ∧
    pagesBusy (wMissingBusy.stackEnv "B").operationPages = true ∧
    get_access_token wMissingBusy.fetch = some "tok1" ∧
    ((cfn_stack_set_processing wMissingBusy [("A", pA), ("B", pB)]).1).filter
      (isPublishFor "B") = [] :=
  ⟨rfl, rfl, rfl, rfl⟩

/-- C2 as amended: for each entry whose deployment-group exists and has a
RUNNING or STOPPING operation, provided every earlier entry's
deployment-group also exists (so the entry is reached at all), processing
issues zero create-instances calls for that entry and exactly one re-queue
publish carrying the same group name with its same target accounts and
regions; the publish is immediately preceded by the requested 20-second
delay; a failing publish is logged; and the publish outcome never makes
the invocation raise (it returns normally whenever the remaining groups
exist). -/
theorem C2_amended (w : World) (pre post : Batch) (g : String)
    (p : StackSetParams) (tok : String)
    (htok : get_access_token w.fetch = some tok)
    (hpre : ∀ x ∈ pre, (w.stackEnv x.1).describeOk = true)
    (hg : (w.stackEnv g).describeOk = true)
    (hbusy : pagesBusy (w.stackEnv g).operationPages = true)
    (hfresh1 : g ∉ pre.map Prod.fst) (hfresh2 : g ∉ post.map Prod.fst) :
    ((cfn_stack_set_processing w (pre ++ (g, p) :: post)).1).filter
        (isCreateFor g) = [] ∧
    ((cfn_stack_set_processing w (pre ++ (g, p) :: post)).1).filter
        (isPublishFor g) =
      [Event.snsPublish w.laceworkAccountSns g p] ∧
    (∃ t1 t2, (cfn_stack_set_processing w (pre ++ (g, p) :: post)).1 =
      t1 ++ Event.sleepSeconds 20 ::
        Event.snsPublish w.laceworkAccountSns g p :: t2) ∧
    ((w.stackEnv g).publishOk = false →
      Event.logError "sns_publish_failed" ∈
        (cfn_stack_set_processing w (pre ++ (g, p) :: post)).1) ∧
    ((∀ x ∈ post, (w.stackEnv x.1).describeOk = true) →
      (cfn_stack_set_processing w (pre ++ (g, p) :: post)).2 =
        Except.ok ()) := by
  have hlook : lookupParams (pre ++ (g, p) :: post) g = p :=
    lookupParams_append g p pre post hfresh1
  have hentry : entryTrace w tok (pre ++ (g, p) :: post) g p =
      Event.describeStackSet g ::
        (listOpsEvents g (w.stackEnv g).operationPages ++
          (Event.logWarn "operations_running" :: Event.sleepSeconds 20 ::
            Event.snsPublish w.laceworkAccountSns g p ::
              (if (w.stackEnv g).publishOk then []
               else [Event.logError "sns_publish_failed"]))) := by
    unfold entryTrace
    rw [hlook]
    simp [hg, hbusy]
  have htr : (cfn_stack_set_processing w (pre ++ (g, p) :: post)).1 =
      Event.stackSetProcessingCalled ::
        (tracesOf w tok (pre ++ (g, p) :: post) pre ++
          (entryTrace w tok (pre ++ (g, p) :: post) g p ++
            (batchRun w tok (pre ++ (g, p) :: post) post).1)) := by
    unfold cfn_stack_set_processing
    rw [htok]
    dsimp only
    rw [batchRun_append w tok _ pre ((g, p) :: post) hpre]
    simp [batchRun, hg]
  have hres : (cfn_stack_set_processing w (pre ++ (g, p) :: post)).2 =
      (batchRun w tok (pre ++ (g, p) :: post) post).2 := by
    unfold cfn_stack_set_processing
    rw [htok]
    dsimp only
    rw [batchRun_append w tok _ pre ((g, p) :: post) hpre]
    simp [batchRun, hg]
  refine ⟨?_, ?_, ?_, ?_, ?_⟩
  · rw [htr]
    simp only [List.filter_cons, List.filter_append]
    rw [tracesOf_filter_create w tok _ g pre hfresh1,
      entryTrace_filter_create, batchRun_filter_create w tok _ g post hfresh2]
    simp [hg, hbusy, isCreateFor]
  · rw [htr]
    simp only [List.filter_cons, List.filter_append]
    rw [tracesOf_filter_publish w tok _ g pre hfresh1,
      entryTrace_filter_publish, batchRun_filter_publish w tok _ g post hfresh2]
    rw [hlook]
    simp [hg, hbusy, isPublishFor]
  · refine ⟨Event.stackSetProcessingCalled ::
      (tracesOf w tok (pre ++ (g, p) :: post) pre ++
        (Event.describeStackSet g ::
          (listOpsEvents g (w.stackEnv g).operationPages ++
            [Event.logWarn "operations_running"]))),
      (if (w.stackEnv g).publishOk then []
       else [Event.logError "sns_publish_failed"]) ++
        (batchRun w tok (pre ++ (g, p) :: post) post).1, ?_⟩
    rw [htr, hentry]
    simp [List.append_assoc]
  · intro hpub
    rw [htr, hentry]
    simp [hpub]
  · intro hpost
    rw [hres]
    exact batchRun_ok w tok _ post hpost

/-- Witness for C2 as amended at a concrete busy world with a one-entry
batch. -/
theorem C2_witness :
    get_access_token wBusy.fetch = some "tok1" ∧
    (wBusy.stackEnv "A").describeOk = true ∧
    pagesBusy (wBusy.stackEnv "A").operationPages = true ∧
    (((cfn_stack_set_processing wBusy [("A", pA)]).1).filter
        (isCreateFor "A") = [] ∧
      ((cfn_stack_set_processing wBusy [("A", pA)]).1).filter
          (isPublishFor "A") =
        [Event.snsPublish wBusy.laceworkAccountSns "A" pA] ∧
      (∃ t1 t2, (cfn_stack_set_processing wBusy [("A", pA)]).1 =
        t1 ++ Event.sleepSeconds 20 ::
          Event.snsPublish wBusy.laceworkAccountSns "A" pA :: t2) ∧
      ((wBusy.stackEnv "A").publishOk = false →
        Event.logError "sns_publish_failed" ∈
          (cfn_stack_set_processing wBusy [("A", pA)]).1) ∧
      ((∀ x ∈ ([] : Batch), (wBusy.stackEnv x.1).describeOk = true) →
        (cfn_stack_set_processing wBusy [("A", pA)]).2 = Except.ok ())) :=
  ⟨rfl, rfl, rfl,
    C2_amended wBusy [] [] "A" pA "tok1" rfl (by simp) rfl rfl
      (by simp) (by simp)⟩

end Account

namespace Account

/-- C9 counterexample: with busy group `A` followed by idle group `B`, the
invocation's trace contains the in-process `time.sleep(20)` call strictly
before entry `B`'s first call, and the publish (the trace's only transport
interaction for `A`) carries no delay parameter: the delay is executed as
a wait, not requested of the transport. -/
theorem C9_counterexample :
    (cfn_stack_set_processing wBusyFirst [("A", pA), ("B", pB)]).1 =
      [Event.stackSetProcessingCalled, Event.describeStackSet "A",
       Event.listStackSetOperations "A", Event.logWarn "operations_running",
       Event.sleepSeconds 20, Event.snsPublish "sns-topic" "A" pA,
       Event.describeStackSet "B", Event.listStackSetOperations "B",
       Event.createStackInstances "B" pB.target_accounts pB.target_regions
         [⟨"AccessToken", "tok1", false, "string"⟩] ⟨"PARALLEL", 999⟩] ∧
    ((cfn_stack_set_processing wBusyFirst [("A", pA), ("B", pB)]).1).indexOf
        (Event.sleepSeconds 20) <
      ((cfn_stack_set_processing wBusyFirst [("A", pA), ("B", pB)]).1).indexOf
        (Event.describeStackSet "B") :=
  ⟨rfl, by decide⟩

/-- C9 as amended: a busy entry's deferral does delay the rest of the
batch: the 20-second delay is an in-process sleep executed before the
re-queue publish, and the next entry's first external call occurs only
after that sleep in the trace. -/
theorem C9_amended (w : World) (pre post : Batch) (g nxt : String)
    (p q : StackSetParams) (tok : String)
    (htok : get_access_token w.fetch = some tok)
    (hpre : ∀ x ∈ pre, (w.stackEnv x.1).describeOk = true)
    (hg : (w.stackEnv g).describeOk = true)
    (hbusy : pagesBusy (w.stackEnv g).operationPages = true) :
    ∃ t1 t2,
      (cfn_stack_set_processing w (pre ++ (g, p) :: (nxt, q) :: post)).1 =
        t1 ++ Event.sleepSeconds 20 :: t2 ∧
      Event.describeStackSet nxt ∈ t2 := by
  have hmem : Event.describeStackSet nxt ∈
      (batchRun w tok (pre ++ (g, p) :: (nxt, q) :: post)
        ((nxt, q) :: post)).1 := by
    obtain ⟨t, ht⟩ :=
      entryTrace_head w tok (pre ++ (g, p) :: (nxt, q) :: post) nxt q
    by_cases hd : (w.stackEnv nxt).describeOk <;> simp [batchRun, hd, ht]
  have hentry : entryTrace w tok (pre ++ (g, p) :: (nxt, q) :: post) g p =
      Event.describeStackSet g ::
        (listOpsEvents g (w.stackEnv g).operationPages ++
          (Event.logWarn "operations_running" :: Event.sleepSeconds 20 ::
            Event.snsPublish w.laceworkAccountSns g
              (lookupParams (pre ++ (g, p) :: (nxt, q) :: post) g) ::
              (if (w.stackEnv g).publishOk then []
               else [Event.logError "sns_publish_failed"]))) := by
    unfold entryTrace
    simp [hg, hbusy]
  have htr : (cfn_stack_set_processing w
      (pre ++ (g, p) :: (nxt, q) :: post)).1 =
      Event.stackSetProcessingCalled ::
        (tracesOf w tok (pre ++ (g, p) :: (nxt, q) :: post) pre ++
          (entryTrace w tok (pre ++ (g, p) :: (nxt, q) :: post) g p ++
            (batchRun w tok (pre ++ (g, p) :: (nxt, q) :: post)
              ((nxt, q) :: post)).1)) := by
    unfold cfn_stack_set_processing
    rw [htok]
    dsimp only
    rw [batchRun_append w tok _ pre ((g, p) :: (nxt, q) :: post) hpre]
    simp [batchRun, hg]
  refine ⟨Event.stackSetProcessingCalled ::
      (tracesOf w tok (pre ++ (g, p) :: (nxt, q) :: post) pre ++
        (Event.describeStackSet g ::
          (listOpsEvents g (w.stackEnv g).operationPages ++
            [Event.logWarn "operations_running"]))),
    Event.snsPublish w.laceworkAccountSns g
        (lookupParams (pre ++ (g, p) :: (nxt, q) :: post) g) ::
      ((if (w.stackEnv g).publishOk then []
        else [Event.logError "sns_publish_failed"]) ++
        (batchRun w tok (pre ++ (g, p) :: (nxt, q) :: post)
          ((nxt, q) :: post)).1), ?_, ?_⟩
  · rw [htr, hentry]
    simp [List.append_assoc]
  · simp [hmem]

/-- Witness for C9 as amended: busy `A` followed by idle `B`. -/
theorem C9_witness :
    get_access_token wBusyFirst.fetch = some "tok1" ∧
    (wBusyFirst.stackEnv "A").describeOk = true ∧
    pagesBusy (wBusyFirst.stackEnv "A").operationPages = true ∧
    (∃ t1 t2,
      (cfn_stack_set_processing wBusyFirst [("A", pA), ("B", pB)]).1 =
        t1 ++ Event.sleepSeconds 20 :: t2 ∧
      Event.describeStackSet "B" ∈ t2) :=
  ⟨rfl, rfl, rfl,
    C9_amended wBusyFirst [] [] "A" "B" pA pB "tok1" rfl (by simp) rfl rfl⟩

/-- The entry loop emits no Honeycomb POST on any suffix of entries. -/
theorem batchRun_filter_honeycomb (w : World) (tok : String) (msgs : Batch) :
    ∀ entries : Batch,
    ((batchRun w tok msgs entries).1).filter isHoneycomb = []
  | [] => rfl
  | (n, p) :: rest => by
    have ih := batchRun_filter_honeycomb w tok msgs rest
    by_cases hd : (w.stackEnv n).describeOk
    · simp [batchRun, hd, List.filter_append, entryTrace_filter_honeycomb, ih]
    · simp [batchRun, hd, entryTrace_filter_honeycomb]

/-- The orchestrator emits no Honeycomb POST. -/
theorem cfn_filter_honeycomb (w : World) (msgs : Batch) :
    ((cfn_stack_set_processing w msgs).1).filter isHoneycomb = [] := by
  unfold cfn_stack_set_processing
  cases htok : get_access_token w.fetch
  · rfl
  · simpa [isHoneycomb] using batchRun_filter_honeycomb w _ msgs msgs

end Account

namespace Account

/-- Trace contributed after the locator call on the SUCCEEDED lifecycle
path: nothing when the locator returned the `False` sentinel (the
`TypeError` fires first) or found instances; the orchestrator's trace when
it returned an empty list. -/
def lifecycleRest (w : World) (lev : LifecycleEvent) : List Event :=
  match locatorResult w.listResult with
  | none => []
  | some instances =>
    if instances.length == 0 then
      (cfn_stack_set_processing w
        [(configName w, ⟨[lev.accountId], [lev.awsRegion]⟩)]).1
    else []

/-- Result of the SUCCEEDED lifecycle path after the locator call. -/
def lifecycleRestResult (w : World) (lev : LifecycleEvent) :
    Except String Unit :=
  match locatorResult w.listResult with
  | none => Except.error "TypeError: len of bool"
  | some instances =>
    if instances.length == 0 then
      (cfn_stack_set_processing w
        [(configName w, ⟨[lev.accountId], [lev.awsRegion]⟩)]).2
    else Except.ok ()

/-- Canonical shape of the SUCCEEDED lifecycle path: the Honeycomb emit
comes first, then the single locator call, then the rest. -/
theorem lifecycle_shape (w : World) (lev : LifecycleEvent)
    (hstate : lev.state = "SUCCEEDED") :
    lifecycle_eventbridge_processing w lev =
      (send_honeycomb_event w.honeycombOk (get_account_from_url w.laceworkUrl)
          "add account" w.laceworkSubAccountName ++
        (Event.listStackInstancesCall (configName w) lev.accountId
            lev.awsRegion :: lifecycleRest w lev),
        lifecycleRestResult w lev) := by
  have hs : (lev.state == "SUCCEEDED") = true := by rw [hstate]; rfl
  unfold lifecycle_eventbridge_processing lifecycleRest lifecycleRestResult
  rw [hs]
  dsimp only [list_stack_instance_by_account_region, if_true]
  cases hloc : locatorResult w.listResult with
  | none => simp
  | some instances =>
    by_cases hlen : (instances.length == 0) = true <;> simp [hlen]

/-- C6 counterexample: a SUCCEEDED lifecycle notification whose
instance-existence check fails with the sentinel does not proceed to
create: the handler raises the `TypeError` of `len(False)` and submits
nothing to the orchestrator. -/
theorem C6_counterexample :
    locatorResult wLocatorFails.listResult = none ∧
    (lifecycle_eventbridge_processing wLocatorFails levNew).2 =
      Except.error "TypeError: len of bool" ∧
    ((lifecycle_eventbridge_processing wLocatorFails levNew).1).filter
      isSubmitCall = [] :=
  ⟨rfl, rfl, rfl⟩

/-- C6 as amended: when the existence check fails with the sentinel, the
handler does not fall through to creation; evaluating the length of the
boolean sentinel raises a type error, so no WorkItem is built and nothing
is submitted to the Orchestrator; the error is absorbed only at the
dispatcher's top-level catch-all. -/
theorem C6_amended (w : World) (lev : LifecycleEvent)
    (hstate : lev.state = "SUCCEEDED")
    (hloc : locatorResult w.listResult = none) :
    (lifecycle_eventbridge_processing w lev).2 =
      Except.error "TypeError: len of bool" ∧
    ((lifecycle_eventbridge_processing w lev).1).filter isSubmitCall = [] ∧
    ((lifecycle_eventbridge_processing w lev).1).filter isCreate = [] ∧
    (lambda_handler w (LambdaEvent.detailEvent "CreateManagedAccount" lev)).2 =
      Except.ok () := by
  rw [lifecycle_shape w lev hstate]
  refine ⟨?_, ?_, ?_, lambda_absorbs w _⟩
  · unfold lifecycleRestResult
    rw [hloc]
  · unfold lifecycleRest
    rw [hloc]
    cases hc : w.honeycombOk <;>
      simp [send_honeycomb_event, hc, List.filter_append, List.filter_cons,
        isSubmitCall]
  · unfold lifecycleRest
    rw [hloc]
    cases hc : w.honeycombOk <;>
      simp [send_honeycomb_event, hc, List.filter_append, List.filter_cons,
        isCreate]

/-- Witness for C6 as amended at a concrete world whose locator call
raises. -/
theorem C6_witness :
    levNew.state = "SUCCEEDED" ∧
    locatorResult wLocatorFails.listResult = none ∧
    ((lifecycle_eventbridge_processing wLocatorFails levNew).2 =
        Except.error "TypeError: len of bool" ∧
      ((lifecycle_eventbridge_processing wLocatorFails levNew).1).filter
        isSubmitCall = [] ∧
      ((lifecycle_eventbridge_processing wLocatorFails levNew).1).filter
        isCreate = [] ∧
      (lambda_handler wLocatorFails
        (LambdaEvent.detailEvent "CreateManagedAccount" levNew)).2 =
        Except.ok ()) :=
  ⟨rfl, rfl, C6_amended wLocatorFails levNew rfl rfl⟩

/-- C8: a SUCCEEDED lifecycle notification for which at least one instance
already exists at the derived triple is an idempotent no-op: zero
create-instances calls, zero submissions to the orchestrator, and a normal
return. -/
theorem C8_existing_instance_noop (w : World) (lev : LifecycleEvent)
    (l : List String) (hstate : lev.state = "SUCCEEDED")
    (hloc : locatorResult w.listResult = some l) (hne : l ≠ []) :
    ((lifecycle_eventbridge_processing w lev).1).filter isCreate = [] ∧
    ((lifecycle_eventbridge_processing w lev).1).filter isSubmitCall = [] ∧
    (lifecycle_eventbridge_processing w lev).2 = Except.ok () := by
  have hlen : (l.length == 0) = false := by
    cases l with
    | nil => exact absurd rfl hne
    | cons a as => rfl
  rw [lifecycle_shape w lev hstate]
  refine ⟨?_, ?_, ?_⟩
  · unfold lifecycleRest
    rw [hloc]
    cases hc : w.honeycombOk <;>
      simp [send_honeycomb_event, hc, hlen, List.filter_append,
        List.filter_cons, isCreate]
  · unfold lifecycleRest
    rw [hloc]
    cases hc : w.honeycombOk <;>
      simp [send_honeycomb_event, hc, hlen, List.filter_append,
        List.filter_cons, isSubmitCall]
  · unfold lifecycleRestResult
    rw [hloc]
    simp [hlen]

/-- Witness for C8 at a concrete world whose locator finds one existing
instance. -/
theorem C8_witness :
    levNew.state = "SUCCEEDED" ∧
    locatorResult wInstanceExists.listResult = some ["existing-instance"] ∧
    (["existing-instance"] : List String) ≠ [] ∧
    (((lifecycle_eventbridge_processing wInstanceExists levNew).1).filter
        isCreate = [] ∧
      ((lifecycle_eventbridge_processing wInstanceExists levNew).1).filter
        isSubmitCall = [] ∧
      (lifecycle_eventbridge_processing wInstanceExists levNew).2 =
        Except.ok ()) :=
  ⟨rfl, rfl, by simp,
    C8_existing_instance_noop wInstanceExists levNew ["existing-instance"]
      rfl rfl (by simp)⟩

end Account

namespace Account

/-- A world identical to `w` except for the outcome of the Honeycomb
POST. -/
def setHoneycombOk (w : World) (b : Bool) : World :=
  ⟨w.fetch, w.stackEnv, w.laceworkAccountSns, w.laceworkUrl,
    w.laceworkSubAccountName, w.listResult, b⟩

/-- C10: on every SUCCEEDED lifecycle notification the telemetry emit is
the first effect, before the instance-existence check; exactly one
telemetry event appears in the whole trace (also when an instance already
exists and nothing is submitted); and the emit's outcome affects neither
the handler's result nor whether a work item is submitted to the
orchestrator. -/
theorem C10_telemetry_emit (w : World) (lev : LifecycleEvent) (b b2 : Bool)
    (hstate : lev.state = "SUCCEEDED") :
    (∃ t, (lifecycle_eventbridge_processing w lev).1 =
        Event.honeycombPost (get_account_from_url w.laceworkUrl) "add account"
          w.laceworkSubAccountName :: t ∧
      Event.listStackInstancesCall (configName w) lev.accountId lev.awsRegion
        ∈ t) ∧
    ((lifecycle_eventbridge_processing w lev).1).filter isHoneycomb =
      [Event.honeycombPost (get_account_from_url w.laceworkUrl) "add account"
        w.laceworkSubAccountName] ∧
    (lifecycle_eventbridge_processing (setHoneycombOk w b) lev).2 =
      (lifecycle_eventbridge_processing (setHoneycombOk w b2) lev).2 ∧
    ((lifecycle_eventbridge_processing (setHoneycombOk w b) lev).1).filter
        isSubmitCall =
      ((lifecycle_eventbridge_processing (setHoneycombOk w b2) lev).1).filter
        isSubmitCall := by
  have hshape := lifecycle_shape w lev hstate
  have hshb := lifecycle_shape (setHoneycombOk w b) lev hstate
  have hshb2 := lifecycle_shape (setHoneycombOk w b2) lev hstate
  have hrest : (lifecycleRest w lev).filter isHoneycomb = [] := by
    unfold lifecycleRest
    cases hloc : locatorResult w.listResult with
    | none => rfl
    | some instances =>
      by_cases hlen : (instances.length == 0) = true <;>
        simp [hlen, cfn_filter_honeycomb]
  refine ⟨?_, ?_, ?_, ?_⟩
  · rw [hshape]
    refine ⟨(if w.honeycombOk then []
        else [Event.logWarn "honeycomb_post_failed"]) ++
      (Event.listStackInstancesCall (configName w) lev.accountId
          lev.awsRegion :: lifecycleRest w lev), ?_, ?_⟩
    · simp [send_honeycomb_event]
    · simp
  · rw [hshape]
    cases hc : w.honeycombOk <;>
      simp [send_honeycomb_event, hc, List.filter_append, List.filter_cons,
        isHoneycomb, hrest]
  · rw [hshb, hshb2]
    rfl
  · rw [hshb, hshb2]
    have h1 : lifecycleRest (setHoneycombOk w b) lev = lifecycleRest w lev :=
      rfl
    have h2 : lifecycleRest (setHoneycombOk w b2) lev = lifecycleRest w lev :=
      rfl
    have hs1 : (setHoneycombOk w b).honeycombOk = b := rfl
    have hs2 : (setHoneycombOk w b2).honeycombOk = b2 := rfl
    have hu1 : (setHoneycombOk w b).laceworkUrl = w.laceworkUrl := rfl
    have hu2 : (setHoneycombOk w b2).laceworkUrl = w.laceworkUrl := rfl
    have hv1 : (setHoneycombOk w b).laceworkSubAccountName =
      w.laceworkSubAccountName := rfl
    have hv2 : (setHoneycombOk w b2).laceworkSubAccountName =
      w.laceworkSubAccountName := rfl
    have hcfg1 : configName (setHoneycombOk w b) = configName w := rfl
    have hcfg2 : configName (setHoneycombOk w b2) = configName w := rfl
    rw [h1, h2, hs1, hs2, hu1, hu2, hv1, hv2, hcfg1, hcfg2]
    cases b <;> cases b2 <;>
      simp [send_honeycomb_event, List.filter_append, List.filter_cons,
        isSubmitCall]

/-- Witness for C10 at a concrete idle world and a SUCCEEDED lifecycle
notification, comparing a succeeding and a failing POST. -/
theorem C10_witness :
    levNew.state = "SUCCEEDED" ∧
    ((∃ t, (lifecycle_eventbridge_processing wIdle levNew).1 =
        Event.honeycombPost (get_account_from_url wIdle.laceworkUrl)
          "add account" wIdle.laceworkSubAccountName :: t ∧
      Event.listStackInstancesCall (configName wIdle) levNew.accountId
        levNew.awsRegion ∈ t) ∧
    ((lifecycle_eventbridge_processing wIdle levNew).1).filter isHoneycomb =
      [Event.honeycombPost (get_account_from_url wIdle.laceworkUrl)
        "add account" wIdle.laceworkSubAccountName] ∧
    (lifecycle_eventbridge_processing (setHoneycombOk wIdle true) levNew).2 =
      (lifecycle_eventbridge_processing (setHoneycombOk wIdle false)
        levNew).2 ∧
    ((lifecycle_eventbridge_processing (setHoneycombOk wIdle true)
        levNew).1).filter isSubmitCall =
      ((lifecycle_eventbridge_processing (setHoneycombOk wIdle false)
        levNew).1).filter isSubmitCall) :=
  ⟨rfl, C10_telemetry_emit wIdle levNew true false rfl⟩

end Account
